import Mathlib

/-!
Verification development for the tinyland-tempo-utils library: a Tempo
TraceQL query client (`queryTraceQL`, `queryTraceQLBatch`) and a span geo
reader (`SpanReader`) that extracts geographic coordinates from traces with
a parent-span fast path, a child-span fallback that fetches the raw OTLP
trace, and a TTL cache.

Numbers produced by `parseFloat` are modelled exactly as decimal values
`mant * 10 ^ exp10` (JS float rounding and the `Infinity` literal are
idealized away); timestamps are `Int` milliseconds; the remote backend is an
explicit behaviour value describing what `fetch` does on this call; thrown
JS errors are modelled with `Except`.
-/

/-- Exact decimal number `mant * 10 ^ exp10`, the value class produced by
parsing a JS decimal literal. -/
structure JsNumber where
  mant : Int
  exp10 : Int
deriving DecidableEq

/-- A JS integer literal as a `JsNumber`. -/
def JsNumber.ofInt (n : Int) : JsNumber := ⟨n, 0⟩

/-- Numeric comparison `a <= b` of exact decimals, by bringing both to the
smaller exponent. -/
def JsNumber.le (a b : JsNumber) : Bool :=
  let e := min a.exp10 b.exp10
  decide (a.mant * 10 ^ (a.exp10 - e).toNat ≤ b.mant * 10 ^ (b.exp10 - e).toNat)

/-- Rational value denoted by an exact decimal. -/
def JsNumber.toRat (a : JsNumber) : ℚ := (a.mant : ℚ) * (10 : ℚ) ^ a.exp10

/-- `JsNumber.le` decides the comparison of the denoted rational values. -/
theorem JsNumber.le_iff (a b : JsNumber) : a.le b = true ↔ a.toRat ≤ b.toRat := by
  have h10 : (0 : ℚ) < 10 := by norm_num
  have key : ∀ c : JsNumber, ∀ e : Int, e ≤ c.exp10 →
      ((c.mant * 10 ^ (c.exp10 - e).toNat : ℤ) : ℚ) = c.toRat * (10 : ℚ) ^ (-e) := by
    intro c e he
    push_cast
    rw [show ((10 : ℚ) ^ (c.exp10 - e).toNat = (10 : ℚ) ^ ((c.exp10 - e : ℤ))) by
      rw [← zpow_natCast, Int.toNat_of_nonneg (by omega)]]
    rw [JsNumber.toRat, sub_eq_add_neg, zpow_add₀ (by norm_num : (10 : ℚ) ≠ 0), mul_assoc]
  rw [JsNumber.le]
  simp only [decide_eq_true_eq]
  constructor
  · intro h
    have h2 : ((a.mant * 10 ^ (a.exp10 - min a.exp10 b.exp10).toNat : ℤ) : ℚ) ≤
        ((b.mant * 10 ^ (b.exp10 - min a.exp10 b.exp10).toNat : ℤ) : ℚ) := by
      exact_mod_cast h
    rw [key a (min a.exp10 b.exp10) (min_le_left _ _),
        key b (min a.exp10 b.exp10) (min_le_right _ _)] at h2
    exact le_of_mul_le_mul_right h2 (zpow_pos h10 _)
  · intro h
    have h2 := mul_le_mul_of_nonneg_right h
      (le_of_lt (zpow_pos h10 (-(min a.exp10 b.exp10))))
    rw [← key a (min a.exp10 b.exp10) (min_le_left _ _),
        ← key b (min a.exp10 b.exp10) (min_le_right _ _)] at h2
    exact_mod_cast h2

/-- Model of a JS whitespace character accepted by `parseFloat`'s leading trim. -/
def isJsSpace (c : Char) : Bool :=
  c = ' ' || c = '\t' || c = '\n' || c = '\r'

/-- Value of a decimal digit character, `none` for a non-digit. -/
def digitVal (c : Char) : Option Nat :=
  if '0' ≤ c ∧ c ≤ '9' then some (c.toNat - 48) else none

/-- Split a leading run of decimal digits off a character list. -/
def takeDigits : List Char → List Nat × List Char
  | [] => ([], [])
  | c :: rest =>
    match digitVal c with
    | some d =>
      let (ds, r) := takeDigits rest
      (d :: ds, r)
    | none => ([], c :: rest)

/-- Natural number denoted by a digit list (most significant first). -/
def natOfDigits (ds : List Nat) : Nat :=
  ds.foldl (fun a d => a * 10 + d) 0

/-- Parse an unsigned decimal mantissa (`digits`, `digits.digits?`, or
`.digits`); `none` when no digits are present at all. -/
def parseMantissa (cs : List Char) : Option (JsNumber × List Char) :=
  let (ip, r1) := takeDigits cs
  match r1 with
  | '.' :: r2 =>
    let (fp, r3) := takeDigits r2
    if ip.isEmpty ∧ fp.isEmpty then none
    else some (⟨(natOfDigits ip : Int) * 10 ^ fp.length + (natOfDigits fp : Int),
               -(fp.length : Int)⟩, r3)
  | _ => if ip.isEmpty then none else some (⟨(natOfDigits ip : Int), 0⟩, r1)

/-- Parse an optional exponent part (`e`/`E`, optional sign, digits); when the
exponent is malformed it is not consumed, matching JS `parseFloat`. -/
def parseExponentPart (cs : List Char) : Int × List Char :=
  match cs with
  | [] => (0, [])
  | c :: rest =>
    if c = 'e' ∨ c = 'E' then
      match rest with
      | [] => (0, c :: rest)
      | s :: r2 =>
        if s = '+' ∨ s = '-' then
          let (ds, r3) := takeDigits r2
          if ds.isEmpty then (0, c :: rest)
          else (if s = '-' then -(natOfDigits ds : Int) else (natOfDigits ds : Int), r3)
        else
          let (ds, r3) := takeDigits rest
          if ds.isEmpty then (0, c :: rest) else ((natOfDigits ds : Int), r3)
    else (0, c :: rest)

/-- Model of JS `parseFloat` as an exact decimal: trim leading whitespace,
optional sign, longest decimal-literal prefix; `none` models `NaN`. -/
def jsParseFloat (s : String) : Option JsNumber :=
  let cs := s.data.dropWhile isJsSpace
  let signAndRest : Int × List Char :=
    match cs with
    | '-' :: r => (-1, r)
    | '+' :: r => (1, r)
    | _ => (1, cs)
  match parseMantissa signAndRest.2 with
  | none => none
  | some (m, r) =>
    let (e, _) := parseExponentPart r
    some ⟨signAndRest.1 * m.mant, m.exp10 + e⟩

/-- Tagged attribute value: at most one of the variants is populated, as in
the `SpanAttribute.value` object (`stringValue`/`intValue`/`doubleValue`/
`boolValue`).  Numeric variants carry their JS `String(...)` image. -/
structure SpanAttrValue where
  stringValue : Option String := none
  intValue : Option String := none
  doubleValue : Option String := none
  boolValue : Option Bool := none
deriving DecidableEq

/-- Span attribute: a key plus a tagged value. -/
structure SpanAttribute where
  key : String
  value : SpanAttrValue
deriving DecidableEq

/-- Stringify an attribute value the way `parseSpanAttributes` does: first
populated variant in order string, int, double, bool; `none` when no variant
is populated (the attribute is skipped). -/
def stringifyAttrValue (v : SpanAttrValue) : Option String :=
  match v.stringValue with
  | some s => some s
  | none =>
    match v.intValue with
    | some s => some s
    | none =>
      match v.doubleValue with
      | some s => some s
      | none =>
        match v.boolValue with
        | some b => some (if b then "true" else "false")
        | none => none

/-- SpanReader.parseSpanAttributes: flatten an attribute list into a
key-to-string map; later attributes with the same key overwrite earlier
ones; attributes with no populated variant are skipped. -/
def parseSpanAttributes (attributes : List SpanAttribute) : String → Option String :=
  attributes.foldl
    (fun m a =>
      match stringifyAttrValue a.value with
      | some s => fun k => if k = a.key then some s else m k
      | none => m)
    (fun _ => none)

/-- Span from the Tempo search response (`TempoSpan`). -/
structure TempoSpan where
  spanID : String
  name : Option String := none
  startTimeUnixNano : String := ""
  durationNanos : String := ""
  attributes : List SpanAttribute
deriving DecidableEq

/-- Span set from the Tempo search response (`spanSet` field). -/
structure TempoSpanSet where
  spans : List TempoSpan
  matched : Nat := 0
deriving DecidableEq

/-- Trace as seen by the geo reader (`TempoTrace`). -/
structure TempoTrace where
  traceID : String
  rootServiceName : Option String := none
  rootTraceName : Option String := none
  spanSet : Option TempoSpanSet := none
deriving DecidableEq

/-- Which storage location a `GeoLocation` came from (`source` field,
`'parent-span' | 'child-span'`; the spec calls these primary-span and
secondary-span). -/
inductive GeoSource where
  | parentSpan
  | childSpan
deriving DecidableEq

/-- Geographic location produced by the geo reader (`GeoLocation`). -/
structure GeoLocation where
  country : String
  countryCode : Option String
  city : Option String
  latitude : Option JsNumber
  longitude : Option JsNumber
  timezone : Option String
  source : GeoSource
deriving DecidableEq

/-- SpanReader.parseCoordinate: `null` for an absent or falsy (empty) string,
otherwise JS `parseFloat` with `NaN` mapped to `null`. -/
def parseCoordinate (value : Option String) : Option JsNumber :=
  match value with
  | none => none
  | some s => if s = "" then none else jsParseFloat s

/-- SpanReader.validateCoordinates: latitude in [-90, 90] and longitude in
[-180, 180], boundaries inclusive. -/
def validateCoordinates (latitude longitude : JsNumber) : Bool :=
  JsNumber.le (JsNumber.ofInt (-90)) latitude && JsNumber.le latitude (JsNumber.ofInt 90) &&
  JsNumber.le (JsNumber.ofInt (-180)) longitude && JsNumber.le longitude (JsNumber.ofInt 180)

/-- `validateCoordinates` decides exactly the rational range conditions
latitude in [-90, 90] and longitude in [-180, 180]. -/
theorem validateCoordinates_iff (latitude longitude : JsNumber) :
    validateCoordinates latitude longitude = true ↔
      (-90 ≤ latitude.toRat ∧ latitude.toRat ≤ 90 ∧
       -180 ≤ longitude.toRat ∧ longitude.toRat ≤ 180) := by
  have hofInt : ∀ n : Int, (JsNumber.ofInt n).toRat = (n : ℚ) := by
    intro n
    simp [JsNumber.ofInt, JsNumber.toRat]
  rw [validateCoordinates]
  simp only [Bool.and_eq_true, JsNumber.le_iff, hofInt]
  push_cast
  tauto

/-- JS `x || dflt` on an optional string: the default replaces an absent or
empty (falsy) value. -/
def jsOrDefault (v : Option String) (dflt : String) : String :=
  match v with
  | some s => if s = "" then dflt else s
  | none => dflt

/-- JS `x || null` on an optional string: an absent or empty value becomes
`null`. -/
def jsOrNull (v : Option String) : Option String :=
  match v with
  | some s => if s = "" then none else some s
  | none => none

/-- The `GeoLocation` object literal both extraction paths build from a
flattened attribute map and validated coordinates. -/
def buildGeo (attrs : String → Option String) (latitude longitude : JsNumber)
    (src : GeoSource) : GeoLocation :=
  { country := jsOrDefault (attrs "geo.country") "Unknown"
    countryCode := attrs "geo.country_code"
    city := jsOrNull (attrs "geo.city")
    latitude := some latitude
    longitude := some longitude
    timezone := attrs "geo.timezone"
    source := src }

/-- First span of the trace's span set (`trace.spanSet?.spans?.[0]`). -/
def firstSpan (trace : TempoTrace) : Option TempoSpan :=
  match trace.spanSet with
  | none => none
  | some ss => ss.spans.head?

/-- SpanReader.readGeoFromParentSpan: extract geo from the first span of the
trace's span set; `none` when there is no span, a coordinate is missing or
unparseable, or the coordinates are out of range. -/
def readGeoFromParentSpan (trace : TempoTrace) : Option GeoLocation :=
  match firstSpan trace with
  | none => none
  | some parentSpan =>
    let attrs := parseSpanAttributes parentSpan.attributes
    match parseCoordinate (attrs "geo.latitude"), parseCoordinate (attrs "geo.longitude") with
    | some latitude, some longitude =>
      if validateCoordinates latitude longitude then
        some (buildGeo attrs latitude longitude GeoSource.parentSpan)
      else none
    | some _, none => none
    | none, _ => none

/-- SpanReader.needsChildSpan: true exactly when parent-span extraction
yields nothing. -/
def needsChildSpan (trace : TempoTrace) : Bool :=
  (readGeoFromParentSpan trace).isNone

example : jsParseFloat "12.5" = some ⟨125, -1⟩ := by decide
example : jsParseFloat "" = none := by decide
example : jsParseFloat "abc" = none := by decide
example : jsParseFloat "-1e2" = some ⟨-1, 2⟩ := by decide
example : validateCoordinates ⟨905, -1⟩ ⟨0, 0⟩ = false := by decide
example : validateCoordinates ⟨-90, 0⟩ ⟨-180, 0⟩ = true := by decide

/-- Span from the full OTLP trace response (`/api/traces/{traceID}`). -/
structure OtlpSpan where
  spanId : String
  traceId : String := ""
  name : String
  startTimeUnixNano : String := ""
  endTimeUnixNano : String := ""
  attributes : List SpanAttribute
deriving DecidableEq

/-- Scope-span grouping in the OTLP trace response. -/
structure OtlpScopeSpans where
  spans : List OtlpSpan
deriving DecidableEq

/-- Batch in the OTLP trace response. -/
structure OtlpBatch where
  scopeSpans : List OtlpScopeSpans
deriving DecidableEq

/-- Full OTLP trace response (`OTLPTraceResponse`). -/
structure OTLPTraceResponse where
  batches : List OtlpBatch
deriving DecidableEq

/-- Body of the innermost loop of `readGeoFromChildSpan`: if this span is
named `fingerprint.geoip_lookup` and its attributes hold parseable, in-range
coordinates, build a child-span `GeoLocation`; otherwise keep scanning. -/
def checkChildSpan (span : OtlpSpan) : Option GeoLocation :=
  if span.name = "fingerprint.geoip_lookup" then
    let attrs := parseSpanAttributes span.attributes
    match parseCoordinate (attrs "geo.latitude"), parseCoordinate (attrs "geo.longitude") with
    | some latitude, some longitude =>
      if validateCoordinates latitude longitude then
        some (buildGeo attrs latitude longitude GeoSource.childSpan)
      else none
    | some _, none => none
    | none, _ => none
  else none

/-- Innermost loop of `readGeoFromChildSpan`: first matching span wins. -/
def scanSpanList : List OtlpSpan → Option GeoLocation
  | [] => none
  | sp :: rest =>
    match checkChildSpan sp with
    | some g => some g
    | none => scanSpanList rest

/-- Middle loop of `readGeoFromChildSpan` over `batch.scopeSpans`. -/
def scanScopeList : List OtlpScopeSpans → Option GeoLocation
  | [] => none
  | sc :: rest =>
    match scanSpanList sc.spans with
    | some g => some g
    | none => scanScopeList rest

/-- Outer loop of `readGeoFromChildSpan` over `fullTrace.batches`. -/
def scanBatchList : List OtlpBatch → Option GeoLocation
  | [] => none
  | b :: rest =>
    match scanScopeList b.scopeSpans with
    | some g => some g
    | none => scanBatchList rest

/-- All spans of an OTLP response in document order
(batch-then-scope-then-span). -/
def allOtlpSpans (resp : OTLPTraceResponse) : List OtlpSpan :=
  (resp.batches.map (fun b => (b.scopeSpans.map OtlpScopeSpans.spans).flatten)).flatten

/-- Behaviour of the backend on one `GET /api/traces/{traceID}` call: the
`fetch` call either throws (network error) or returns a response with an
`ok` flag and a body whose JSON decoding either succeeds or throws. -/
inductive TraceFetchBehavior where
  | throwErr (msg : String)
  | respond (ok : Bool) (status : Nat) (body : Except String OTLPTraceResponse)

/-- The `fetch(url, ...)` step of `fetchFullTrace`: a thrown network error is
an `Except.error`; otherwise the response (ok flag and decodable body). -/
def jsFetchTrace : TraceFetchBehavior → Except String (Bool × Except String OTLPTraceResponse)
  | .throwErr msg => .error msg
  | .respond ok _ body => .ok (ok, body)

/-- The try-block of `SpanReader.fetchFullTrace` before its catch: fetch
(which may throw), return `null` on a non-ok status, otherwise decode the
JSON body (which may throw). -/
def fetchFullTraceBody (b : TraceFetchBehavior) : Except String (Option OTLPTraceResponse) := do
  let resp ← jsFetchTrace b
  if resp.1 then do
    let j ← resp.2
    pure (some j)
  else
    pure none

/-- SpanReader.fetchFullTrace: the try-block with its catch, which converts
any thrown error into `null`. -/
def fetchFullTrace (b : TraceFetchBehavior) : Option OTLPTraceResponse :=
  match fetchFullTraceBody b with
  | .ok r => r
  | .error _ => none

/-- The try-block of `SpanReader.readGeoFromChildSpan` before its catch:
fetch the full trace (total, its own errors already caught) and scan it. -/
def readGeoFromChildSpanBody (b : TraceFetchBehavior) (trace : TempoTrace) :
    Except String (Option GeoLocation) := do
  match fetchFullTrace b with
  | none => pure none
  | some fullTrace => pure (scanBatchList fullTrace.batches)

/-- SpanReader.readGeoFromChildSpan: the try-block with its catch, which
converts any thrown error into `null` ("no geo data"). -/
def readGeoFromChildSpan (b : TraceFetchBehavior) (trace : TempoTrace) : Option GeoLocation :=
  match readGeoFromChildSpanBody b trace with
  | .ok r => r
  | .error _ => none

/-- Cache entry: the looked-up value (possibly `null`) plus the write time. -/
structure CacheEntry where
  geoLocation : Option GeoLocation
  fetchedAt : Int
deriving DecidableEq

/-- JS `Map.get`. -/
def mapGet (m : List (String × CacheEntry)) (k : String) : Option CacheEntry :=
  match m with
  | [] => none
  | (k2, v) :: rest => if k2 = k then some v else mapGet rest k

/-- JS `Map.set`: overwrite the existing entry for the key or append one. -/
def mapSet (m : List (String × CacheEntry)) (k : String) (v : CacheEntry) :
    List (String × CacheEntry) :=
  match m with
  | [] => [(k, v)]
  | (k2, v2) :: rest => if k2 = k then (k, v) :: rest else (k2, v2) :: mapSet rest k v

/-- JS `Map.delete`. -/
def mapDelete (m : List (String × CacheEntry)) (k : String) : List (String × CacheEntry) :=
  match m with
  | [] => []
  | (k2, v2) :: rest => if k2 = k then rest else (k2, v2) :: mapDelete rest k

/-- Cache statistics as reported by `getCacheStats`. -/
structure CacheStats where
  hits : Nat
  misses : Nat
  size : Nat
deriving DecidableEq

/-- Mutable state of one `SpanReader` instance: the cache map plus the
`cacheStats` record (whose `size` field is maintained separately from the
map and only recomputed from it by `getCacheStats`). -/
structure ReaderState where
  cache : List (String × CacheEntry)
  statsHits : Nat
  statsMisses : Nat
  statsSize : Nat
deriving DecidableEq

/-- Immutable per-instance configuration of a `SpanReader`. -/
structure ReaderConfig where
  cacheEnabled : Bool
  cacheTTL : Int
  maxConcurrency : Nat
deriving DecidableEq

/-- Fresh state of a newly constructed `SpanReader`. -/
def initialReaderState : ReaderState :=
  { cache := [], statsHits := 0, statsMisses := 0, statsSize := 0 }

/-- SpanReader.getCached at time `now`: `none` models `undefined` (no usable
entry); an entry older than the TTL is deleted (with the stats size field
updated) and reported as `undefined`. -/
def getCached (cfg : ReaderConfig) (now : Int) (traceID : String) (s : ReaderState) :
    Option (Option GeoLocation) × ReaderState :=
  match mapGet s.cache traceID with
  | none => (none, s)
  | some entry =>
    if now - entry.fetchedAt > cfg.cacheTTL then
      let c := mapDelete s.cache traceID
      (none, { s with cache := c, statsSize := c.length })
    else
      (some entry.geoLocation, s)

/-- SpanReader.setCached at time `now`. -/
def setCached (now : Int) (traceID : String) (geoLocation : Option GeoLocation)
    (s : ReaderState) : ReaderState :=
  let c := mapSet s.cache traceID ⟨geoLocation, now⟩
  { s with cache := c, statsSize := c.length }

/-- SpanReader.clearCache: drop all entries and zero the stats size field. -/
def clearCache (s : ReaderState) : ReaderState :=
  { s with cache := [], statsSize := 0 }

/-- SpanReader.getCacheStats: point-in-time copy of the counters with the
size recomputed from the map. -/
def getCacheStats (s : ReaderState) : CacheStats :=
  { hits := s.statsHits, misses := s.statsMisses, size := s.cache.length }

/-- The lookup `readGeo` performs on a cache miss (parent span first, child
span fallback). -/
def freshLookup (b : TraceFetchBehavior) (trace : TempoTrace) : Option GeoLocation :=
  match readGeoFromParentSpan trace with
  | some parentGeo => some parentGeo
  | none => readGeoFromChildSpan b trace

/-- SpanReader.readGeo: cache check (when enabled), parent-span extraction,
child-span fallback, caching of the outcome (null included).  `nowGet` and
`nowSet` are the times of the `Date.now()` calls inside `getCached` and
`setCached`; the last component counts network fetches performed. -/
def readGeo (cfg : ReaderConfig) (b : TraceFetchBehavior) (nowGet nowSet : Int)
    (trace : TempoTrace) (s : ReaderState) : Option GeoLocation × ReaderState × Nat :=
  if cfg.cacheEnabled then
    match getCached cfg nowGet trace.traceID s with
    | (some cached, s1) => (cached, { s1 with statsHits := s1.statsHits + 1 }, 0)
    | (none, s1) =>
      let s2 := { s1 with statsMisses := s1.statsMisses + 1 }
      match readGeoFromParentSpan trace with
      | some parentGeo => (some parentGeo, setCached nowSet trace.traceID (some parentGeo) s2, 0)
      | none =>
        let childGeo := readGeoFromChildSpan b trace
        (childGeo, setCached nowSet trace.traceID childGeo s2, 1)
  else
    match readGeoFromParentSpan trace with
    | some parentGeo => (some parentGeo, s, 0)
    | none => (readGeoFromChildSpan b trace, s, 1)

instance {ε α : Type} [DecidableEq ε] [DecidableEq α] : DecidableEq (Except ε α) :=
  fun x y =>
    match x, y with
    | .ok a, .ok b =>
      if h : a = b then isTrue (by rw [h]) else isFalse (fun hh => h (Except.ok.inj hh))
    | .error a, .error b =>
      if h : a = b then isTrue (by rw [h]) else isFalse (fun hh => h (Except.error.inj hh))
    | .ok _, .error _ => isFalse (fun hh => Except.noConfusion hh)
    | .error _, .ok _ => isFalse (fun hh => Except.noConfusion hh)

/-- Whether `pat` is a prefix of `cs`. -/
def charsPrefix : List Char → List Char → Bool
  | [], _ => true
  | _ :: _, [] => false
  | a :: as, b :: bs => a = b && charsPrefix as bs

/-- Whether `pat` occurs somewhere in `cs`. -/
def charsContain (pat cs : List Char) : Bool :=
  match cs with
  | [] => charsPrefix pat []
  | _ :: rest => charsPrefix pat cs || charsContain pat rest

/-- JS `String.prototype.includes`. -/
def strContains (s pat : String) : Bool :=
  charsContain pat.data s.data

/-- Span in a TraceQL search result (`TraceQLSpan`); its attribute map is
opaque to the query client. -/
structure TraceQLSpan where
  spanID : String
  name : String
  startTimeUnixNano : String
  durationNanos : String
  attributes : List (String × String) := []
deriving DecidableEq

/-- Span set in a TraceQL search result. -/
structure TraceQLSpanSet where
  spans : List TraceQLSpan
  matched : Nat
deriving DecidableEq

/-- Trace in a TraceQL search result. -/
structure TraceQLTrace where
  traceID : String
  rootServiceName : String
  rootTraceName : String
  startTimeUnixNano : String
  durationMs : Int
  spanSets : List TraceQLSpanSet
deriving DecidableEq

/-- Query execution metrics in a TraceQL search result. -/
structure TraceQLMetrics where
  inspectedTraces : Nat
  inspectedSpans : Nat
  inspectedBytes : Nat
deriving DecidableEq

/-- TraceQL search result: ordered traces plus metrics. -/
structure TraceQLResult where
  traces : List TraceQLTrace
  metrics : TraceQLMetrics
deriving DecidableEq

/-- A thrown JS error, as its `name` and `message`. -/
structure JsError where
  name : String
  message : String
deriving DecidableEq

/-- Shape of a Tempo error-response body (`TempoErrorResponse`), as produced
by `JSON.parse` when it succeeds. -/
structure TempoErrorBody where
  errorField : Option String
  messageField : Option String
deriving DecidableEq

/-- Data of a non-ok search response: status, status text, the outcome of
`response.text()` (which may itself fail), and the outcome of `JSON.parse`
on that body (`none` models a parse throw; this is environment data because
`JSON.parse` is a JS builtin applied to the raw body). -/
structure HttpFailure where
  status : Nat
  statusText : String
  bodyText : Except Unit String
  parsedJson : Option TempoErrorBody
deriving DecidableEq

/-- Behaviour of one `POST /api/search` call: the fetch-and-decode pipeline
resolves with a parsed `TraceQLResult`, returns a non-ok response, or throws
(network error, abort, malformed 2xx body). -/
inductive SearchFetchBehavior where
  | success (result : TraceQLResult)
  | httpFailure (f : HttpFailure)
  | throwErr (e : JsError)
deriving DecidableEq

/-- The error message `queryTraceQL` builds for a non-ok response: prefer the
`error` or `message` field of a JSON error body (JS `||` semantics), else
fall back to status plus status text, appending a non-empty raw body shorter
than 200 characters. -/
def httpErrorMessage (f : HttpFailure) : String :=
  let errorBody :=
    match f.bodyText with
    | .ok t => t
    | .error _ => "Unable to read error body"
  let base := "Tempo query failed: " ++ toString f.status ++ " " ++ f.statusText
  match f.parsedJson with
  | some j =>
    let picked :=
      match j.errorField with
      | some e => if e = "" then j.messageField else some e
      | none => j.messageField
    match picked with
    | some m => if m = "" then base else "Tempo query failed: " ++ m
    | none => base
  | none =>
    if errorBody ≠ "" ∧ errorBody.length < 200 then base ++ " - " ++ errorBody else base

/-- The hard-coded query timeout (`DEFAULT_TIMEOUT_MS`). -/
def DEFAULT_TIMEOUT_MS : Int := 30000

/-- The validation error message for an out-of-range limit. -/
def invalidLimitMsg (limit : Int) : String :=
  "Invalid limit: " ++ toString limit ++ ". Must be between 1 and 1000."

/-- One recorded performance-tracker execution
(`QueryPerformanceTracker.recordQueryExecution` argument). -/
structure TrackerEntry where
  queryHash : String
  query : String
  executionTimeMs : Int
  resultCount : Nat
  startTimeMs : Int
  endTimeMs : Int
  success : Bool
  errorMessage : Option String
deriving DecidableEq

/-- Environment of one `queryTraceQL` call: whether a performance tracker is
configured, its `hashQuery` collaborator, what the search fetch does, and
the wall-clock instants taken at the top of the call and in the handler. -/
structure QueryEnv where
  trackerConfigured : Bool
  hashQuery : String → String
  fetch : SearchFetchBehavior
  callStartMs : Int
  callEndMs : Int

/-- The request body `queryTraceQL` builds: epoch-millisecond instants are
converted to nanoseconds at the wire boundary. -/
structure SearchRequestBody where
  query : String
  startNanos : Int
  endNanos : Int
  limit : Int
deriving DecidableEq

/-- Request body construction in `queryTraceQL`. -/
def mkSearchRequestBody (query : String) (startMs endMs limit : Int) : SearchRequestBody :=
  { query := query, startNanos := startMs * 1000000, endNanos := endMs * 1000000, limit := limit }

/-- queryTraceQL: validate the limit before any network activity, then fetch;
on success record a success tracker entry and return the result; on any
failure record a failure entry (resultCount 0) and rethrow the error after
classifying timeouts and fetch errors.  Returns the outcome, the list of
tracker entries recorded during the call, and the number of network fetches
issued. -/
def queryTraceQL (env : QueryEnv) (query : String) (startMs endMs : Int) (limit : Int) :
    Except JsError TraceQLResult × List TrackerEntry × Nat :=
  if limit < 1 ∨ limit > 1000 then
    (.error ⟨"Error", invalidLimitMsg limit⟩, [], 0)
  else
    let queryHash := if env.trackerConfigured then env.hashQuery query else ""
    let executionTimeMs := env.callEndMs - env.callStartMs
    match env.fetch with
    | .success result =>
      (.ok result,
       if env.trackerConfigured then
         [⟨queryHash, query, executionTimeMs, result.traces.length,
           env.callStartMs, env.callEndMs, true, none⟩]
       else [],
       1)
    | .httpFailure f =>
      let msg := httpErrorMessage f
      let entries : List TrackerEntry :=
        if env.trackerConfigured then
          [⟨queryHash, query, executionTimeMs, 0, env.callStartMs, env.callEndMs, false, some msg⟩]
        else []
      let thrown : JsError :=
        if strContains msg "fetch" then ⟨"Error", "Tempo fetch error: " ++ msg⟩
        else ⟨"Error", msg⟩
      (.error thrown, entries, 1)
    | .throwErr e =>
      let entries : List TrackerEntry :=
        if env.trackerConfigured then
          [⟨queryHash, query, executionTimeMs, 0,
            env.callStartMs, env.callEndMs, false, some e.message⟩]
        else []
      let thrown : JsError :=
        if e.name = "AbortError" then
          ⟨"Error", "Tempo query timeout: Query exceeded " ++
            toString (DEFAULT_TIMEOUT_MS / 1000) ++ "s timeout"⟩
        else if strContains e.message "fetch" then
          ⟨"Error", "Tempo fetch error: " ++ e.message⟩
        else e
      (.error thrown, entries, 1)

/-- One per-query outcome in a batch (`BatchQueryItemResult`). -/
structure BatchQueryItemResult where
  success : Bool
  data : Option TraceQLResult
  errMsg : Option String
  executionTimeMs : Int
deriving DecidableEq

/-- Aggregated batch result (`BatchQueryResult`). -/
structure BatchQueryResult where
  results : List BatchQueryItemResult
  totalExecutionTimeMs : Int
deriving DecidableEq

/-- One input item of `queryTraceQLBatch` (query text, time range, optional
limit defaulting to 20 inside `queryTraceQL`). -/
structure BatchQueryConfig where
  query : String
  startMs : Int
  endMs : Int
  limit : Option Int
deriving DecidableEq

/-- Environment of one batch item: the environment of its `queryTraceQL`
call plus the `Date.now()` instants at the item's dispatch and settlement. -/
structure BatchItemEnv where
  queryEnv : QueryEnv
  itemStartMs : Int
  itemEndMs : Int

/-- The async closure `queryTraceQLBatch` maps over its input: run
`queryTraceQL` and catch, converting success and failure into a
`BatchQueryItemResult` with this item's own elapsed time. -/
def batchItem (env : BatchItemEnv) (qc : BatchQueryConfig) : BatchQueryItemResult :=
  let executionTimeMs := env.itemEndMs - env.itemStartMs
  match (queryTraceQL env.queryEnv qc.query qc.startMs qc.endMs (qc.limit.getD 20)).1 with
  | .ok result => ⟨true, some result, none, executionTimeMs⟩
  | .error e => ⟨false, none, some e.message, executionTimeMs⟩

/-- `queries.map((queryConfig, idx) => ...)`: the settled outcome of every
item, in input order, the item at input position `i` using environment
`envs (i0 + i)`. -/
def runItems (envs : Nat → BatchItemEnv) : Nat → List BatchQueryConfig →
    List BatchQueryItemResult
  | _, [] => []
  | i0, qc :: rest => batchItem (envs i0) qc :: runItems envs (i0 + 1) rest

/-- Model of `Promise.all`'s result collection: as each promise settles (in
completion order `order`, a list of indices), its value is stored at its own
index. -/
def fillSlots {α : Type} (outcomes : List α) : List Nat → List (Option α) → List (Option α)
  | [], slots => slots
  | i :: rest, slots =>
    match outcomes.get? i with
    | some v => fillSlots outcomes rest (slots.set i (some v))
    | none => fillSlots outcomes rest slots

/-- Extract the final array once every slot is filled; `none` if some promise
never settled. -/
def collectSlots {α : Type} : List (Option α) → Option (List α)
  | [] => some []
  | none :: _ => none
  | some v :: rest =>
    match collectSlots rest with
    | some vs => some (v :: vs)
    | none => none

/-- `Promise.all(promises)`: settle the given outcomes in completion order
`order` and read the slots back in input order. -/
def promiseAll {α : Type} (outcomes : List α) (order : List Nat) : Option (List α) :=
  collectSlots (fillSlots outcomes order (List.replicate outcomes.length none))

/-- queryTraceQLBatch: dispatch every query, await them all (the completion
order `order` is arbitrary), and wrap the collected per-item results with
the batch's total elapsed time.  `none` only in the unreachable case of a
completion order that misses some item. -/
def queryTraceQLBatch (envs : Nat → BatchItemEnv) (order : List Nat)
    (batchStartMs batchEndMs : Int) (queries : List BatchQueryConfig) :
    Option BatchQueryResult :=
  match promiseAll (runItems envs 0 queries) order with
  | some results => some ⟨results, batchEndMs - batchStartMs⟩
  | none => none

/-- Inversion of a successful parent-span extraction: there is a first span
whose coordinates parsed and validated, and the result is the built object. -/
theorem readGeoFromParentSpan_inv (t : TempoTrace) (g : GeoLocation)
    (hg : readGeoFromParentSpan t = some g) :
    ∃ sp la lo, firstSpan t = some sp ∧
      parseCoordinate (parseSpanAttributes sp.attributes "geo.latitude") = some la ∧
      parseCoordinate (parseSpanAttributes sp.attributes "geo.longitude") = some lo ∧
      validateCoordinates la lo = true ∧
      g = buildGeo (parseSpanAttributes sp.attributes) la lo GeoSource.parentSpan := by
  rcases hfs : firstSpan t with _ | sp
  · simp [readGeoFromParentSpan, hfs] at hg
  · rcases hla : parseCoordinate (parseSpanAttributes sp.attributes "geo.latitude") with _ | la
    · simp [readGeoFromParentSpan, hfs, hla] at hg
    · rcases hlo : parseCoordinate (parseSpanAttributes sp.attributes "geo.longitude") with _ | lo
      · simp [readGeoFromParentSpan, hfs, hla, hlo] at hg
      · rcases hv : validateCoordinates la lo with _ | _
        · simp [readGeoFromParentSpan, hfs, hla, hlo, hv] at hg
        · simp [readGeoFromParentSpan, hfs, hla, hlo, hv] at hg
          exact ⟨sp, la, lo, rfl, hla, hlo, hv, hg.symm⟩

/-- Inversion of a successful child-span check: the span is the geoip-lookup
span, its coordinates parsed and validated, and the result is the built
object. -/
theorem checkChildSpan_inv (sp : OtlpSpan) (g : GeoLocation)
    (hg : checkChildSpan sp = some g) :
    sp.name = "fingerprint.geoip_lookup" ∧
    ∃ la lo,
      parseCoordinate (parseSpanAttributes sp.attributes "geo.latitude") = some la ∧
      parseCoordinate (parseSpanAttributes sp.attributes "geo.longitude") = some lo ∧
      validateCoordinates la lo = true ∧
      g = buildGeo (parseSpanAttributes sp.attributes) la lo GeoSource.childSpan := by
  by_cases hn : sp.name = "fingerprint.geoip_lookup"
  · refine ⟨hn, ?_⟩
    rcases hla : parseCoordinate (parseSpanAttributes sp.attributes "geo.latitude") with _ | la
    · simp [checkChildSpan, hn, hla] at hg
    · rcases hlo : parseCoordinate (parseSpanAttributes sp.attributes "geo.longitude") with _ | lo
      · simp [checkChildSpan, hn, hla, hlo] at hg
      · rcases hv : validateCoordinates la lo with _ | _
        · simp [checkChildSpan, hn, hla, hlo, hv] at hg
        · simp [checkChildSpan, hn, hla, hlo, hv] at hg
          exact ⟨la, lo, rfl, rfl, hv, hg.symm⟩
  · simp [checkChildSpan, hn] at hg

/-- C9: `clearCache` empties the cache and zeroes the stats size field while
leaving the hit and miss counters (and everything else) unchanged; the
reported stats afterwards are the old counters with size zero. -/
theorem clearCache_resets_only_cache (s : ReaderState) :
    clearCache s = { cache := [], statsHits := s.statsHits,
                     statsMisses := s.statsMisses, statsSize := 0 } ∧
    getCacheStats (clearCache s) =
      { hits := s.statsHits, misses := s.statsMisses, size := 0 } :=
  ⟨rfl, rfl⟩

/-- C5: for every limit outside [1, 1000], `queryTraceQL` fails immediately
with the descriptive invalid-limit error, issues no fetch, and records no
performance-tracker entry. -/
theorem queryTraceQL_invalid_limit_rejected (env : QueryEnv) (query : String)
    (startMs endMs limit : Int) (h : limit < 1 ∨ limit > 1000) :
    queryTraceQL env query startMs endMs limit =
      (Except.error ⟨"Error", invalidLimitMsg limit⟩, [], 0) := by
  rw [queryTraceQL, if_pos h]

/-- Witness for C5 at the concrete out-of-range limit 1001. -/
theorem queryTraceQL_invalid_limit_rejected_witness :
    ((1001 : Int) < 1 ∨ (1001 : Int) > 1000) ∧
    queryTraceQL ⟨true, fun _ => "", SearchFetchBehavior.success ⟨[], ⟨0, 0, 0⟩⟩, 0, 7⟩
        "q" 0 0 1001 =
      (Except.error ⟨"Error", invalidLimitMsg 1001⟩, [], 0) :=
  ⟨by decide,
   queryTraceQL_invalid_limit_rejected ⟨true, fun _ => "", .success ⟨[], ⟨0, 0, 0⟩⟩, 0, 7⟩
     "q" 0 0 1001 (by decide)⟩

/-- C7: the secondary-lookup path is total: its try-block never raises out of
`readGeoFromChildSpan`, and a thrown network error, a non-ok response, or a
body whose decoding throws are all converted into the null result. -/
theorem readGeoFromChildSpan_never_throws (b : TraceFetchBehavior) (trace : TempoTrace) :
    (∃ r, readGeoFromChildSpanBody b trace = Except.ok r) ∧
    (∀ msg, b = TraceFetchBehavior.throwErr msg → readGeoFromChildSpan b trace = none) ∧
    (∀ status body, b = TraceFetchBehavior.respond false status body →
      readGeoFromChildSpan b trace = none) ∧
    (∀ status msg, b = TraceFetchBehavior.respond true status (Except.error msg) →
      readGeoFromChildSpan b trace = none) := by
  refine ⟨?_, ?_, ?_, ?_⟩
  · rcases hf : fetchFullTrace b with _ | ft
    · exact ⟨none, by rw [readGeoFromChildSpanBody, hf]; rfl⟩
    · exact ⟨scanBatchList ft.batches, by rw [readGeoFromChildSpanBody, hf]; rfl⟩
  · intro msg hb
    subst hb
    rfl
  · intro status body hb
    subst hb
    rfl
  · intro status msg hb
    subst hb
    rfl

/-- Witness for C7: a concrete network failure yields the null result. -/
theorem readGeoFromChildSpan_never_throws_witness :
    readGeoFromChildSpan (TraceFetchBehavior.throwErr "connect ECONNREFUSED")
      ⟨"t1", none, none, none⟩ = none :=
  (readGeoFromChildSpan_never_throws (.throwErr "connect ECONNREFUSED")
      ⟨"t1", none, none, none⟩).2.1
    "connect ECONNREFUSED" rfl

/-- Parent-span extraction yields nothing when the first span (if any) lacks
a parseable latitude or longitude. -/
theorem readGeoFromParentSpan_none_of_unparseable (t : TempoTrace)
    (h : ∀ sp, firstSpan t = some sp →
      parseCoordinate (parseSpanAttributes sp.attributes "geo.latitude") = none ∨
      parseCoordinate (parseSpanAttributes sp.attributes "geo.longitude") = none) :
    readGeoFromParentSpan t = none := by
  rcases hfs : firstSpan t with _ | sp
  · simp [readGeoFromParentSpan, hfs]
  · rcases h sp hfs with hla | hlo
    · rcases h2 : parseCoordinate (parseSpanAttributes sp.attributes "geo.longitude") with _ | lo
      · simp [readGeoFromParentSpan, hfs, hla, h2]
      · simp [readGeoFromParentSpan, hfs, hla, h2]
    · rcases h2 : parseCoordinate (parseSpanAttributes sp.attributes "geo.latitude") with _ | la
      · simp [readGeoFromParentSpan, hfs, hlo, h2]
      · simp [readGeoFromParentSpan, hfs, hlo, h2]

/-- C8: `parseCoordinate` is `null` on an absent value, the empty string, and
any string `parseFloat` cannot parse; a missing or unparseable coordinate
makes primary extraction yield no result (not an error); a `GeoLocation` is
produced from the primary span exactly when both coordinates parse and pass
inclusive range validation, which decides latitude in [-90, 90] and
longitude in [-180, 180] over the denoted rational values. -/
theorem parseCoordinate_primary_extraction :
    parseCoordinate none = none ∧
    parseCoordinate (some "") = none ∧
    (∀ s, jsParseFloat s = none → parseCoordinate (some s) = none) ∧
    (∀ t sp, firstSpan t = some sp →
      (parseCoordinate (parseSpanAttributes sp.attributes "geo.latitude") = none ∨
       parseCoordinate (parseSpanAttributes sp.attributes "geo.longitude") = none) →
      readGeoFromParentSpan t = none) ∧
    (∀ t g, readGeoFromParentSpan t = some g →
      ∃ sp la lo, firstSpan t = some sp ∧
        parseCoordinate (parseSpanAttributes sp.attributes "geo.latitude") = some la ∧
        parseCoordinate (parseSpanAttributes sp.attributes "geo.longitude") = some lo ∧
        validateCoordinates la lo = true ∧
        g.latitude = some la ∧ g.longitude = some lo) ∧
    (∀ la lo, validateCoordinates la lo = true ↔
      (-90 ≤ la.toRat ∧ la.toRat ≤ 90 ∧ -180 ≤ lo.toRat ∧ lo.toRat ≤ 180)) := by
  refine ⟨rfl, rfl, ?_, ?_, ?_, validateCoordinates_iff⟩
  · intro s hs
    by_cases h : s = ""
    · simp [parseCoordinate, h]
    · simp [parseCoordinate, h, hs]
  · intro t sp hfs hor
    exact readGeoFromParentSpan_none_of_unparseable t (fun sp2 hfs2 => by
      rw [hfs] at hfs2
      rw [← Option.some.inj hfs2]
      exact hor)
  · intro t g hg
    obtain ⟨sp, la, lo, hfs, hla, hlo, hv, hbuild⟩ := readGeoFromParentSpan_inv t g hg
    exact ⟨sp, la, lo, hfs, hla, hlo, hv, by rw [hbuild]; rfl, by rw [hbuild]; rfl⟩


/-- Witness for C8: the non-numeric string "abc" parses to null. -/
theorem parseCoordinate_primary_extraction_witness :
    jsParseFloat "abc" = none ∧ parseCoordinate (some "abc") = none :=
  ⟨by decide, parseCoordinate_primary_extraction.2.2.1 "abc" (by decide)⟩

/-- C10: on both extraction paths, a present-but-empty `geo.country`
attribute yields country "Unknown" and a present-but-empty `geo.city`
attribute yields a null city — falsy values behave like absent ones. -/
theorem geo_falsy_country_city :
    (∀ t sp g, firstSpan t = some sp → readGeoFromParentSpan t = some g →
      (parseSpanAttributes sp.attributes "geo.country" = some "" → g.country = "Unknown") ∧
      (parseSpanAttributes sp.attributes "geo.city" = some "" → g.city = none)) ∧
    (∀ sp g, checkChildSpan sp = some g →
      (parseSpanAttributes sp.attributes "geo.country" = some "" → g.country = "Unknown") ∧
      (parseSpanAttributes sp.attributes "geo.city" = some "" → g.city = none)) := by
  constructor
  · intro t sp g hfs hg
    obtain ⟨sp2, la, lo, hfs2, _, _, _, hbuild⟩ := readGeoFromParentSpan_inv t g hg
    rw [hfs] at hfs2
    rw [← Option.some.inj hfs2] at hbuild
    constructor
    · intro hc
      rw [hbuild]
      simp [buildGeo, jsOrDefault, hc]
    · intro hc
      rw [hbuild]
      simp [buildGeo, jsOrNull, hc]
  · intro sp g hg
    obtain ⟨_, la, lo, _, _, _, hbuild⟩ := checkChildSpan_inv sp g hg
    constructor
    · intro hc
      rw [hbuild]
      simp [buildGeo, jsOrDefault, hc]
    · intro hc
      rw [hbuild]
      simp [buildGeo, jsOrNull, hc]

/-- Concrete span with valid coordinates but empty-string country and city. -/
def w10span : TempoSpan :=
  { spanID := "s1"
    attributes := [⟨"geo.latitude", { stringValue := some "10" }⟩,
                   ⟨"geo.longitude", { stringValue := some "20" }⟩,
                   ⟨"geo.country", { stringValue := some "" }⟩,
                   ⟨"geo.city", { stringValue := some "" }⟩] }

/-- Concrete trace holding `w10span` as its first span. -/
def w10trace : TempoTrace :=
  { traceID := "t10", spanSet := some { spans := [w10span] } }

/-- The geo location the parent path produces for `w10trace`. -/
def w10geo : GeoLocation :=
  ⟨"Unknown", none, none, some ⟨10, 0⟩, some ⟨20, 0⟩, none, GeoSource.parentSpan⟩

/-- Witness for C10 on the concrete trace `w10trace`. -/
theorem geo_falsy_country_city_witness :
    readGeoFromParentSpan w10trace = some w10geo ∧
    w10geo.country = "Unknown" ∧ w10geo.city = none := by
  have h : readGeoFromParentSpan w10trace = some w10geo := by decide
  have hc := (geo_falsy_country_city.1 w10trace w10span w10geo (by decide) h)
  exact ⟨h, hc.1 (by decide), hc.2 (by decide)⟩

/-- Scanning an appended span list inspects the left part first. -/
theorem scanSpanList_append (xs ys : List OtlpSpan) :
    scanSpanList (xs ++ ys) =
      match scanSpanList xs with
      | some g => some g
      | none => scanSpanList ys := by
  induction xs with
  | nil => simp [scanSpanList]
  | cons sp rest ih =>
    rw [List.cons_append, scanSpanList, scanSpanList]
    cases checkChildSpan sp
    · exact ih
    · rfl

/-- The scope-spans loop equals a scan of its concatenated span lists. -/
theorem scanScopeList_eq (scs : List OtlpScopeSpans) :
    scanScopeList scs = scanSpanList ((scs.map OtlpScopeSpans.spans).flatten) := by
  induction scs with
  | nil => rfl
  | cons sc rest ih =>
    rw [List.map_cons, List.flatten_cons, scanSpanList_append, scanScopeList, ih]

/-- The batch loop equals a scan of all spans in document order. -/
theorem scanBatchList_eq (bs : List OtlpBatch) :
    scanBatchList bs =
      scanSpanList ((bs.map (fun b => (b.scopeSpans.map OtlpScopeSpans.spans).flatten)).flatten) := by
  induction bs with
  | nil => rfl
  | cons b rest ih =>
    rw [List.map_cons, List.flatten_cons, scanSpanList_append, scanBatchList, ih,
        scanScopeList_eq]

/-- The scan returns the check of the first span that passes it. -/
theorem scanSpanList_eq_find (l : List OtlpSpan) :
    scanSpanList l =
      match l.find? (fun sp => (checkChildSpan sp).isSome) with
      | some sp => checkChildSpan sp
      | none => none := by
  induction l with
  | nil => rfl
  | cons sp rest ih =>
    rcases h : checkChildSpan sp with _ | g
    · rw [scanSpanList, h, List.find?_cons_of_neg _ (by simp [h]), ih]
    · rw [scanSpanList, h, List.find?_cons_of_pos _ (by simp [h])]
      exact h.symm

/-- The result of a cache-miss `readGeo` call is the fresh lookup. -/
theorem readGeo_miss (cfg : ReaderConfig) (b : TraceFetchBehavior) (g w : Int)
    (trace : TempoTrace) (s s' : ReaderState)
    (hen : cfg.cacheEnabled = true)
    (hget : getCached cfg g trace.traceID s = (none, s')) :
    readGeo cfg b g w trace s =
      (freshLookup b trace,
       setCached w trace.traceID (freshLookup b trace)
         { s' with statsMisses := s'.statsMisses + 1 },
       match readGeoFromParentSpan trace with
       | some _ => 0
       | none => 1) := by
  cases hp : readGeoFromParentSpan trace <;>
    simp [readGeo, hen, hget, freshLookup, hp]

/-- C2: when the first span lacks parseable coordinates and there is no
usable cache entry, `readGeo` on an ok raw-trace response returns the geo of
the first `fingerprint.geoip_lookup` span (document order) with parseable,
in-range coordinates — source child-span, exactly those coordinates — and
returns null when no span of the raw trace passes the check. -/
theorem readGeo_child_span_fallback (cfg : ReaderConfig) (bstatus : Nat)
    (resp : OTLPTraceResponse) (nowGet nowSet : Int) (trace : TempoTrace) (s : ReaderState)
    (hpar : ∀ sp, firstSpan trace = some sp →
      parseCoordinate (parseSpanAttributes sp.attributes "geo.latitude") = none ∨
      parseCoordinate (parseSpanAttributes sp.attributes "geo.longitude") = none)
    (hcache : mapGet s.cache trace.traceID = none) :
    (∀ sp, (allOtlpSpans resp).find? (fun x => (checkChildSpan x).isSome) = some sp →
      ∃ la lo g,
        parseCoordinate (parseSpanAttributes sp.attributes "geo.latitude") = some la ∧
        parseCoordinate (parseSpanAttributes sp.attributes "geo.longitude") = some lo ∧
        validateCoordinates la lo = true ∧
        (readGeo cfg (.respond true bstatus (.ok resp)) nowGet nowSet trace s).1 = some g ∧
        g.source = GeoSource.childSpan ∧ g.latitude = some la ∧ g.longitude = some lo) ∧
    ((∀ sp ∈ allOtlpSpans resp, checkChildSpan sp = none) →
      (readGeo cfg (.respond true bstatus (.ok resp)) nowGet nowSet trace s).1 = none) := by
  have hparent : readGeoFromParentSpan trace = none :=
    readGeoFromParentSpan_none_of_unparseable trace hpar
  have hres : (readGeo cfg (.respond true bstatus (.ok resp)) nowGet nowSet trace s).1 =
      scanBatchList resp.batches := by
    have hchild : readGeoFromChildSpan (.respond true bstatus (.ok resp)) trace =
        scanBatchList resp.batches := rfl
    by_cases hen : cfg.cacheEnabled
    · rw [readGeo_miss cfg _ nowGet nowSet trace s s hen (by rw [getCached, hcache])]
      simp [freshLookup, hparent, hchild]
    · simp [readGeo, hen, hparent, hchild]
  rw [hres, scanBatchList_eq, ← allOtlpSpans, scanSpanList_eq_find]
  constructor
  · intro sp hfind
    rw [hfind]
    rcases hch : checkChildSpan sp with _ | g
    · have := List.find?_some hfind
      simp [hch] at this
    · obtain ⟨_, la, lo, hla, hlo, hv, hbuild⟩ := checkChildSpan_inv sp g hch
      exact ⟨la, lo, g, hla, hlo, hv, hch, by rw [hbuild]; rfl, by rw [hbuild]; rfl,
             by rw [hbuild]; rfl⟩
  · intro hnone
    rw [List.find?_eq_none.mpr (fun x hx => by simp [hnone x hx])]

/-- Concrete parent span without geo attributes. -/
def w2span : TempoSpan := { spanID := "p1", attributes := [] }

/-- Concrete trace whose first span lacks geo attributes. -/
def w2trace : TempoTrace := { traceID := "t2", spanSet := some { spans := [w2span] } }

/-- Concrete geoip-lookup child span with valid coordinates. -/
def w2child : OtlpSpan :=
  { spanId := "c1", name := "fingerprint.geoip_lookup"
    attributes := [⟨"geo.latitude", { stringValue := some "45.5" }⟩,
                   ⟨"geo.longitude", { stringValue := some "-73.5" }⟩] }

/-- Concrete OTLP response holding `w2child`. -/
def w2resp : OTLPTraceResponse := ⟨[⟨[⟨[w2child]⟩]⟩]⟩

/-- Concrete reader configuration with caching enabled. -/
def w2cfg : ReaderConfig := ⟨true, 300000, 10⟩

/-- Witness for C2 on the concrete trace `w2trace` and response `w2resp`. -/
theorem readGeo_child_span_fallback_witness :
    ∃ la lo g,
      parseCoordinate (parseSpanAttributes w2child.attributes "geo.latitude") = some la ∧
      parseCoordinate (parseSpanAttributes w2child.attributes "geo.longitude") = some lo ∧
      validateCoordinates la lo = true ∧
      (readGeo w2cfg (.respond true 200 (.ok w2resp)) 0 0 w2trace initialReaderState).1 =
        some g ∧
      g.source = GeoSource.childSpan ∧ g.latitude = some la ∧ g.longitude = some lo :=
  (readGeo_child_span_fallback w2cfg 200 w2resp 0 0 w2trace initialReaderState
    (fun sp hsp => by
      have h0 : firstSpan w2trace = some w2span := by decide
      rw [h0] at hsp
      rw [← Option.some.inj hsp]
      exact Or.inl (by decide))
    (by decide)).1 w2child (by decide)

/-- `Map.get` right after `Map.set` of the same key finds the new entry. -/
theorem mapGet_mapSet_self (m : List (String × CacheEntry)) (k : String) (e : CacheEntry) :
    mapGet (mapSet m k e) k = some e := by
  induction m with
  | nil => simp [mapSet, mapGet]
  | cons kv rest ih =>
    by_cases h : kv.1 = k
    · simp [mapSet, mapGet, h]
    · simp [mapSet, mapGet, h, ih]

/-- A cache-hit `readGeo` call returns the cached value, bumps the hit
counter, and performs no fetch. -/
theorem readGeo_hit (cfg : ReaderConfig) (b : TraceFetchBehavior) (g w : Int)
    (trace : TempoTrace) (s s' : ReaderState) (v : Option GeoLocation)
    (hen : cfg.cacheEnabled = true)
    (hget : getCached cfg g trace.traceID s = (some v, s')) :
    readGeo cfg b g w trace s = (v, { s' with statsHits := s'.statsHits + 1 }, 0) := by
  simp [readGeo, hen, hget]

/-- C1: with caching enabled and no prior entry, a first `readGeo` call is a
miss producing some value v (possibly null); a second call for the same
trace within the TTL returns exactly v, bumps only the hit counter, and
performs no fetch; a second call after the TTL evicts the stale entry, bumps
the miss counter (hits unchanged), and recomputes a fresh lookup. -/
theorem readGeo_cache_roundtrip (cfg : ReaderConfig) (b1 b2 : TraceFetchBehavior)
    (g1 w1 g2 w2 : Int) (trace : TempoTrace) (s : ReaderState)
    (hen : cfg.cacheEnabled = true)
    (hfresh : mapGet s.cache trace.traceID = none) :
    (g2 - w1 ≤ cfg.cacheTTL →
      readGeo cfg b2 g2 w2 trace (readGeo cfg b1 g1 w1 trace s).2.1 =
        ((readGeo cfg b1 g1 w1 trace s).1,
         { (readGeo cfg b1 g1 w1 trace s).2.1 with
             statsHits := (readGeo cfg b1 g1 w1 trace s).2.1.statsHits + 1 },
         0)) ∧
    (g2 - w1 > cfg.cacheTTL →
      getCached cfg g2 trace.traceID (readGeo cfg b1 g1 w1 trace s).2.1 =
        (none,
         { (readGeo cfg b1 g1 w1 trace s).2.1 with
             cache := mapDelete (readGeo cfg b1 g1 w1 trace s).2.1.cache trace.traceID,
             statsSize :=
               (mapDelete (readGeo cfg b1 g1 w1 trace s).2.1.cache trace.traceID).length }) ∧
      (readGeo cfg b2 g2 w2 trace (readGeo cfg b1 g1 w1 trace s).2.1).1 =
        freshLookup b2 trace ∧
      (readGeo cfg b2 g2 w2 trace (readGeo cfg b1 g1 w1 trace s).2.1).2.1.statsMisses =
        (readGeo cfg b1 g1 w1 trace s).2.1.statsMisses + 1 ∧
      (readGeo cfg b2 g2 w2 trace (readGeo cfg b1 g1 w1 trace s).2.1).2.1.statsHits =
        (readGeo cfg b1 g1 w1 trace s).2.1.statsHits) := by
  have hget1 : getCached cfg g1 trace.traceID s = (none, s) := by
    rw [getCached, hfresh]
  have h1 := readGeo_miss cfg b1 g1 w1 trace s s hen hget1
  rw [h1]
  have hentry : mapGet (setCached w1 trace.traceID (freshLookup b1 trace)
      { s with statsMisses := s.statsMisses + 1 }).cache trace.traceID =
      some ⟨freshLookup b1 trace, w1⟩ := by
    rw [setCached]
    exact mapGet_mapSet_self _ _ _
  constructor
  · intro hle
    have hget2 : getCached cfg g2 trace.traceID
        (setCached w1 trace.traceID (freshLookup b1 trace)
          { s with statsMisses := s.statsMisses + 1 }) =
        (some (freshLookup b1 trace),
         setCached w1 trace.traceID (freshLookup b1 trace)
           { s with statsMisses := s.statsMisses + 1 }) := by
      rw [getCached, hentry]
      simp [not_lt.mpr hle]
    exact readGeo_hit cfg b2 g2 w2 trace _ _ _ hen hget2
  · intro hgt
    have hget2 : getCached cfg g2 trace.traceID
        (setCached w1 trace.traceID (freshLookup b1 trace)
          { s with statsMisses := s.statsMisses + 1 }) =
        (none,
         { (setCached w1 trace.traceID (freshLookup b1 trace)
             { s with statsMisses := s.statsMisses + 1 }) with
             cache := mapDelete (setCached w1 trace.traceID (freshLookup b1 trace)
               { s with statsMisses := s.statsMisses + 1 }).cache trace.traceID,
             statsSize := (mapDelete (setCached w1 trace.traceID (freshLookup b1 trace)
               { s with statsMisses := s.statsMisses + 1 }).cache trace.traceID).length }) := by
      rw [getCached, hentry]
      simp [hgt]
    refine ⟨hget2, ?_⟩
    rw [readGeo_miss cfg b2 g2 w2 trace _ _ hen hget2]
    refine ⟨rfl, ?_, ?_⟩ <;> simp [setCached]

/-- Concrete trace for the C1 witness. -/
def w1trace : TempoTrace := ⟨"t1", none, none, none⟩

/-- Concrete reader configuration for the C1 witness. -/
def w1cfg : ReaderConfig := ⟨true, 300000, 10⟩

/-- Witness for C1: second call 1000 ms after a first miss (network down, so
the cached value is null) is a pure cache hit. -/
theorem readGeo_cache_roundtrip_witness :
    (1000 : Int) - 0 ≤ w1cfg.cacheTTL ∧
    readGeo w1cfg (.throwErr "x") 1000 1000 w1trace
        (readGeo w1cfg (.throwErr "x") 0 0 w1trace initialReaderState).2.1 =
      ((readGeo w1cfg (.throwErr "x") 0 0 w1trace initialReaderState).1,
       { (readGeo w1cfg (.throwErr "x") 0 0 w1trace initialReaderState).2.1 with
           statsHits :=
             (readGeo w1cfg (.throwErr "x") 0 0 w1trace initialReaderState).2.1.statsHits + 1 },
       0) :=
  ⟨by decide,
   (readGeo_cache_roundtrip w1cfg (.throwErr "x") (.throwErr "x") 0 0 1000 1000 w1trace
     initialReaderState rfl rfl).1 (by decide)⟩

/-- Settling promises never changes the number of slots. -/
theorem fillSlots_length {α : Type} (outcomes : List α) (order : List Nat) :
    ∀ slots : List (Option α), (fillSlots outcomes order slots).length = slots.length := by
  induction order with
  | nil => intro slots; rfl
  | cons i rest ih =>
    intro slots
    rw [fillSlots]
    cases outcomes.get? i
    · exact ih slots
    · rw [ih, List.length_set]

/-- A slot whose index never completes keeps its old content. -/
theorem fillSlots_get_not_mem {α : Type} (outcomes : List α) (order : List Nat) (i : Nat)
    (hi : i ∉ order) :
    ∀ slots : List (Option α), (fillSlots outcomes order slots).get? i = slots.get? i := by
  induction order with
  | nil => intro slots; rfl
  | cons j rest ih =>
    intro slots
    have hij : i ≠ j := fun h => hi (by rw [h]; exact List.mem_cons_self j rest)
    have hrest : i ∉ rest := fun h => hi (List.mem_cons_of_mem j h)
    rw [fillSlots]
    cases outcomes.get? j
    · exact ih hrest slots
    · rw [ih hrest, List.get?_set_ne _ _ (fun h => hij h.symm)]

/-- A slot whose index completes ends up holding that promise's outcome. -/
theorem fillSlots_get_mem {α : Type} (outcomes : List α) (order : List Nat) (i : Nat)
    (v : α) (hv : outcomes.get? i = some v) (hi : i ∈ order) :
    ∀ slots : List (Option α), i < slots.length →
      (fillSlots outcomes order slots).get? i = some (some v) := by
  induction order with
  | nil => exact absurd hi (List.not_mem_nil i)
  | cons j rest ih =>
    intro slots hlen
    rw [fillSlots]
    by_cases hrest : i ∈ rest
    · cases h : outcomes.get? j
      · exact ih hrest slots hlen
      · exact ih hrest _ (by rw [List.length_set]; exact hlen)
    · have hij : i = j := by
        rcases List.mem_cons.mp hi with h | h
        · exact h
        · exact absurd h hrest
      subst hij
      rw [hv, fillSlots_get_not_mem outcomes rest i hrest,
          List.get?_set_eq_of_lt _ hlen]

/-- Reading back a fully-settled slot array yields the values. -/
theorem collectSlots_map_some {α : Type} (l : List α) :
    collectSlots (l.map some) = some l := by
  induction l with
  | nil => rfl
  | cons v rest ih => rw [List.map_cons, collectSlots, ih]

/-- `Promise.all` returns exactly the input-ordered outcomes whenever every
promise eventually settles, whatever the completion order. -/
theorem promiseAll_complete {α : Type} (outcomes : List α) (order : List Nat)
    (h : ∀ i, i < outcomes.length → i ∈ order) :
    promiseAll outcomes order = some outcomes := by
  have hfill : fillSlots outcomes order (List.replicate outcomes.length none) =
      outcomes.map some := by
    apply List.ext_get?_iff.mpr
    intro i
    by_cases hi : i < outcomes.length
    · rcases hv : outcomes.get? i with _ | v
      · exact absurd (List.get?_eq_none.mp hv) (by omega)
      · rw [fillSlots_get_mem outcomes order i v hv (h i hi) _
            (by rw [List.length_replicate]; exact hi)]
        rw [List.get?_eq_getElem?, List.getElem?_map]
        rw [List.get?_eq_getElem?] at hv
        rw [hv]
        rfl
    · have h1 : (fillSlots outcomes order (List.replicate outcomes.length none)).get? i =
          none := by
        apply List.get?_eq_none.mpr
        rw [fillSlots_length, List.length_replicate]
        omega
      have h2 : (outcomes.map some).get? i = none := by
        apply List.get?_eq_none.mpr
        rw [List.length_map]
        omega
      rw [h1, h2]
  rw [promiseAll, hfill, collectSlots_map_some]

/-- The dispatched item list has one outcome per input query. -/
theorem runItems_length (envs : Nat → BatchItemEnv) (qs : List BatchQueryConfig) :
    ∀ i0, (runItems envs i0 qs).length = qs.length := by
  induction qs with
  | nil => intro i0; rfl
  | cons qc rest ih => intro i0; rw [runItems, List.length_cons, List.length_cons, ih]

/-- The outcome at position `j` is the settled result of input query `j`. -/
theorem runItems_get? (envs : Nat → BatchItemEnv) (qs : List BatchQueryConfig) :
    ∀ i0 j, (runItems envs i0 qs).get? j =
      (qs.get? j).map (fun qc => batchItem (envs (i0 + j)) qc) := by
  induction qs with
  | nil => intro i0 j; rfl
  | cons qc rest ih =>
    intro i0 j
    cases j with
    | zero => rfl
    | succ j =>
      rw [runItems, List.get?_cons_succ, List.get?_cons_succ, ih]
      have : i0 + 1 + j = i0 + (j + 1) := by omega
      rw [this]

/-- Full characterization of `queryTraceQLBatch` under a complete completion
order: it returns the per-item settled outcomes in input order. -/
theorem queryTraceQLBatch_spec (envs : Nat → BatchItemEnv) (order : List Nat)
    (batchStartMs batchEndMs : Int) (queries : List BatchQueryConfig)
    (horder : ∀ i, i < queries.length → i ∈ order) :
    queryTraceQLBatch envs order batchStartMs batchEndMs queries =
      some ⟨runItems envs 0 queries, batchEndMs - batchStartMs⟩ ∧
    (∀ i, (runItems envs 0 queries).get? i =
      (queries.get? i).map (fun qc => batchItem (envs i) qc)) := by
  constructor
  · rw [queryTraceQLBatch,
        promiseAll_complete (runItems envs 0 queries) order
          (by rw [runItems_length]; exact horder)]
  · intro i
    rw [runItems_get?]
    simp only [Nat.zero_add]

/-- C3: for every input sequence and every complete completion order, the
batch returns exactly one outcome per input query, in input order. -/
theorem queryTraceQLBatch_preserves_input_order (envs : Nat → BatchItemEnv)
    (order : List Nat) (batchStartMs batchEndMs : Int) (queries : List BatchQueryConfig)
    (horder : ∀ i, i < queries.length → i ∈ order) :
    ∃ br, queryTraceQLBatch envs order batchStartMs batchEndMs queries = some br ∧
      br.results.length = queries.length ∧
      (∀ i, br.results.get? i = (queries.get? i).map (fun qc => batchItem (envs i) qc)) := by
  obtain ⟨hbatch, hitems⟩ :=
    queryTraceQLBatch_spec envs order batchStartMs batchEndMs queries horder
  exact ⟨_, hbatch, runItems_length envs queries 0, hitems⟩

/-- C4: a failing item yields a success-false entry carrying the error
message, the batch still completes with every other entry equal to the
item's isolated outcome, and a singleton batch of any item produces exactly
that outcome. -/
theorem queryTraceQLBatch_partial_failure (envs : Nat → BatchItemEnv) (order : List Nat)
    (batchStartMs batchEndMs : Int) (queries : List BatchQueryConfig) (i : Nat)
    (qc : BatchQueryConfig) (e : JsError)
    (horder : ∀ j, j < queries.length → j ∈ order)
    (hqc : queries.get? i = some qc)
    (hfail : (queryTraceQL (envs i).queryEnv qc.query qc.startMs qc.endMs
      (qc.limit.getD 20)).1 = Except.error e) :
    ∃ br, queryTraceQLBatch envs order batchStartMs batchEndMs queries = some br ∧
      br.results.get? i =
        some ⟨false, none, some e.message, (envs i).itemEndMs - (envs i).itemStartMs⟩ ∧
      (∀ j, br.results.get? j = (queries.get? j).map (fun q => batchItem (envs j) q)) ∧
      (∀ j q, queries.get? j = some q →
        ∃ brj, queryTraceQLBatch (fun _ => envs j) [0] batchStartMs batchEndMs [q] =
            some brj ∧
          brj.results = [batchItem (envs j) q]) := by
  obtain ⟨hbatch, hitems⟩ :=
    queryTraceQLBatch_spec envs order batchStartMs batchEndMs queries horder
  refine ⟨_, hbatch, ?_, hitems, ?_⟩
  · rw [hitems i, hqc]
    simp [batchItem, hfail]
  · intro j q hq
    obtain ⟨hbj, _⟩ :=
      queryTraceQLBatch_spec (fun _ => envs j) [0] batchStartMs batchEndMs [q]
        (by
          intro k hk
          have : k = 0 := by simpa using hk
          rw [this]
          exact List.mem_cons_self 0 [])
    exact ⟨_, hbj, rfl⟩

/-- Concrete item environment for the batch witnesses. -/
def w3env : BatchItemEnv :=
  ⟨⟨true, fun _ => "h", SearchFetchBehavior.success ⟨[], ⟨1, 2, 3⟩⟩, 0, 5⟩, 0, 5⟩

/-- Concrete two-query batch input. -/
def w3queries : List BatchQueryConfig := [⟨"q0", 0, 1, none⟩, ⟨"q1", 0, 1, some 5⟩]

/-- Witness for C3: a two-query batch whose completion order is reversed
(item 1 settles first) still reports results in input order. -/
theorem queryTraceQLBatch_preserves_input_order_witness :
    ∃ br, queryTraceQLBatch (fun _ => w3env) [1, 0] 0 9 w3queries = some br ∧
      br.results.length = w3queries.length ∧
      (∀ i, br.results.get? i =
        (w3queries.get? i).map (fun qc => batchItem w3env qc)) :=
  queryTraceQLBatch_preserves_input_order (fun _ => w3env) [1, 0] 0 9 w3queries
    (by decide)

/-- Concrete item environments for the C4 witness. -/
def w4envs : Nat → BatchItemEnv :=
  fun _ => ⟨⟨true, fun _ => "h", SearchFetchBehavior.success ⟨[], ⟨0, 0, 0⟩⟩, 0, 5⟩, 2, 7⟩

/-- Concrete batch whose second item carries an invalid limit. -/
def w4queries : List BatchQueryConfig := [⟨"ok", 0, 1, none⟩, ⟨"bad", 0, 1, some 0⟩]

/-- Witness for C4: the invalid-limit item settles as a failure entry while
the batch completes and the other item keeps its isolated outcome. -/
theorem queryTraceQLBatch_partial_failure_witness :
    ∃ br, queryTraceQLBatch w4envs [0, 1] 0 9 w4queries = some br ∧
      br.results.get? 1 =
        some ⟨false, none, some (invalidLimitMsg 0),
              (w4envs 1).itemEndMs - (w4envs 1).itemStartMs⟩ ∧
      (∀ j, br.results.get? j = (w4queries.get? j).map (fun q => batchItem (w4envs j) q)) ∧
      (∀ j q, w4queries.get? j = some q →
        ∃ brj, queryTraceQLBatch (fun _ => w4envs j) [0] 0 9 [q] = some brj ∧
          brj.results = [batchItem (w4envs j) q]) :=
  queryTraceQLBatch_partial_failure w4envs [0, 1] 0 9 w4queries 1
    ⟨"bad", 0, 1, some 0⟩ ⟨"Error", invalidLimitMsg 0⟩
    (by decide) (by decide) (by decide)

/-- C6: with a configured tracker and a valid limit, `queryTraceQL` records
exactly one tracker entry: success-true with the returned trace count on
success, success-false with resultCount 0 on failure — and a failing fetch
still propagates an error to the caller. -/
theorem queryTraceQL_records_one_tracker_entry (env : QueryEnv) (query : String)
    (startMs endMs limit : Int)
    (htr : env.trackerConfigured = true) (h1 : 1 ≤ limit) (h2 : limit ≤ 1000) :
    ∃ entry, (queryTraceQL env query startMs endMs limit).2.1 = [entry] ∧
      (∀ r, (queryTraceQL env query startMs endMs limit).1 = Except.ok r →
        entry.success = true ∧ entry.resultCount = r.traces.length) ∧
      (∀ e, (queryTraceQL env query startMs endMs limit).1 = Except.error e →
        entry.success = false ∧ entry.resultCount = 0) ∧
      (∀ f, env.fetch = SearchFetchBehavior.httpFailure f →
        ∃ e, (queryTraceQL env query startMs endMs limit).1 = Except.error e) ∧
      (∀ e0, env.fetch = SearchFetchBehavior.throwErr e0 →
        ∃ e, (queryTraceQL env query startMs endMs limit).1 = Except.error e) := by
  have hn : ¬(limit < 1 ∨ limit > 1000) := by omega
  rcases hfetch : env.fetch with r | f | e0
  · have hq : queryTraceQL env query startMs endMs limit =
        (Except.ok r,
         [⟨env.hashQuery query, query, env.callEndMs - env.callStartMs, r.traces.length,
           env.callStartMs, env.callEndMs, true, none⟩], 1) := by
      simp [queryTraceQL, hn, hfetch, htr]
    refine ⟨_, by rw [hq], ?_, ?_, ?_, ?_⟩
    · intro r2 h
      rw [hq] at h
      have := Except.ok.inj h
      exact ⟨rfl, by rw [← this]⟩
    · intro e he
      rw [hq] at he
      exact Except.noConfusion he
    · intro f hf
      exact SearchFetchBehavior.noConfusion hf
    · intro e0 hf
      exact SearchFetchBehavior.noConfusion hf
  · have hq : queryTraceQL env query startMs endMs limit =
        (Except.error
          (if strContains (httpErrorMessage f) "fetch" then
            ⟨"Error", "Tempo fetch error: " ++ httpErrorMessage f⟩
          else ⟨"Error", httpErrorMessage f⟩),
         [⟨env.hashQuery query, query, env.callEndMs - env.callStartMs, 0,
           env.callStartMs, env.callEndMs, false, some (httpErrorMessage f)⟩], 1) := by
      simp [queryTraceQL, hn, hfetch, htr]
    refine ⟨_, by rw [hq], ?_, ?_, ?_, ?_⟩
    · intro r2 h
      rw [hq] at h
      exact Except.noConfusion h
    · intro e he
      exact ⟨rfl, rfl⟩
    · intro f2 hf
      exact ⟨_, by rw [hq]⟩
    · intro e0 hf
      exact SearchFetchBehavior.noConfusion hf
  · have hq : queryTraceQL env query startMs endMs limit =
        (Except.error
          (if e0.name = "AbortError" then
            ⟨"Error", "Tempo query timeout: Query exceeded " ++
              toString (DEFAULT_TIMEOUT_MS / 1000) ++ "s timeout"⟩
          else if strContains e0.message "fetch" then
            ⟨"Error", "Tempo fetch error: " ++ e0.message⟩
          else e0),
         [⟨env.hashQuery query, query, env.callEndMs - env.callStartMs, 0,
           env.callStartMs, env.callEndMs, false, some e0.message⟩], 1) := by
      simp [queryTraceQL, hn, hfetch, htr]
    refine ⟨_, by rw [hq], ?_, ?_, ?_, ?_⟩
    · intro r2 h
      rw [hq] at h
      exact Except.noConfusion h
    · intro e he
      exact ⟨rfl, rfl⟩
    · intro f2 hf
      exact SearchFetchBehavior.noConfusion hf
    · intro e1 hf
      exact ⟨_, by rw [hq]⟩

/-- Concrete environment with a configured tracker and a successful fetch. -/
def w6env : QueryEnv :=
  ⟨true, fun _ => "hash", SearchFetchBehavior.success ⟨[], ⟨4, 5, 6⟩⟩, 100, 130⟩

/-- Witness for C6 on a concrete successful call with limit 20. -/
theorem queryTraceQL_records_one_tracker_entry_witness :
    w6env.trackerConfigured = true ∧ (1 : Int) ≤ 20 ∧ (20 : Int) ≤ 1000 ∧
    ∃ entry, (queryTraceQL w6env "q" 0 1 20).2.1 = [entry] ∧
      (∀ r, (queryTraceQL w6env "q" 0 1 20).1 = Except.ok r →
        entry.success = true ∧ entry.resultCount = r.traces.length) ∧
      (∀ e, (queryTraceQL w6env "q" 0 1 20).1 = Except.error e →
        entry.success = false ∧ entry.resultCount = 0) ∧
      (∀ f, w6env.fetch = SearchFetchBehavior.httpFailure f →
        ∃ e, (queryTraceQL w6env "q" 0 1 20).1 = Except.error e) ∧
      (∀ e0, w6env.fetch = SearchFetchBehavior.throwErr e0 →
        ∃ e, (queryTraceQL w6env "q" 0 1 20).1 = Except.error e) :=
  ⟨rfl, by decide, by decide,
   queryTraceQL_records_one_tracker_entry w6env "q" 0 1 20 rfl (by decide) (by decide)⟩
